import Mathlib

/-!
Shallow embedding of cloudflare/certinel, for checking its specification.

The embedding covers:
* the filesystem sentinel (`fswatcher`, `Sentinel` with `loadCertificate`,
  `Start`, `GetCertificate`, `GetClientCertificate`, `New`); the `ticker`
  package's `Sentinel.loadCertificate`, `New`, `GetCertificate` and
  `GetClientCertificate` are textually identical to the `fswatcher` ones and
  are covered by the same definitions;
* the lifecycle coordinator (`certinel` package, the `Certinel` struct with
  its `Watch` loop, `Close`, `GetCertificate`, `GetClientCertificate`).

External collaborators (`tls.LoadX509KeyPair`, `x509.ParseCertificate`,
`filepath.EvalSymlinks`, the fsnotify event source) are modelled as oracle
inputs: each call site receives the outcome of the external call as data.
-/

/-- Go `error` values: either a plain message or a wrapped error, as produced
by `fmt.Errorf("...: %w", err)`. -/
inductive GoError where
  | msg (s : String)
  | wrap (context : String) (cause : GoError)
deriving DecidableEq, Repr

/-- Raw certificate bytes (`[]byte`). -/
abbrev Bytes := List Nat

/-- The parsed leaf metadata of Go's `x509.Certificate` that this repository
reads (serial number and validity window). -/
structure X509Certificate where
  serialNumber : Nat
  notBefore : Int := 0
  notAfter : Int := 0
deriving DecidableEq, Repr

/-- Go's `tls.Certificate`: the DER chain (`Certificate [][]byte`) plus the
optional parsed leaf (`Leaf *x509.Certificate`, `none` = nil pointer). -/
structure TLSCertificate where
  certificate : List Bytes
  leaf : Option X509Certificate := none
deriving DecidableEq, Repr

/-- Models Go `path/filepath.Clean` on a Unix path element stack: push a
component, where `""` and `"."` vanish, and `".."` pops the previous
component unless the stack is empty (rooted paths drop it, relative paths
keep it) or the previous component is itself `".."`. -/
def cleanPush (rooted : Bool) (stack : List String) (elem : String) : List String :=
  if elem = "" ∨ elem = "." then stack
  else if elem = ".." then
    match stack with
    | top :: rest => if top = ".." then elem :: top :: rest else rest
    | [] => if rooted then [] else [".."]
  else elem :: stack

/-- Splits a character list into its `'/'`-separated components. -/
def splitOnSlash : List Char → List Char → List String
  | acc, [] => [String.mk acc.reverse]
  | acc, c :: cs =>
    if c = '/' then String.mk acc.reverse :: splitOnSlash [] cs
    else splitOnSlash (c :: acc) cs

/-- Joins path components with `'/'`. -/
def joinSlash : List String → String
  | [] => ""
  | [s] => s
  | s :: rest => s ++ "/" ++ joinSlash rest

/-- Models Go `path/filepath.Clean` for the Unix separator: shortest
lexically-equivalent path (empty input becomes `"."`, `"."` and empty
components are dropped, `".."` eats the preceding component, rooted paths
keep their leading slash). -/
def filepathClean (path : String) : String :=
  if path = "" then "."
  else
    let rooted := path.data.head? == some '/'
    let stack := (splitOnSlash [] path.data).foldl (cleanPush rooted) []
    let joined := joinSlash stack.reverse
    if rooted then "/" ++ joined
    else if joined = "" then "." else joined

namespace Fswatcher

/-- fsnotify operation bits, as declared by fsnotify (`Create = 1 << 0`,
`Write = 1 << 1`). -/
def fsnotifyCreate : Nat := 1

/-- fsnotify `Write` bit. -/
def fsnotifyWrite : Nat := 2

/-- `const fsCreateOrWriteOpMask = fsnotify.Create | fsnotify.Write`. -/
def fsCreateOrWriteOpMask : Nat := fsnotifyCreate ||| fsnotifyWrite

/-- An fsnotify directory event: affected path and operation bitmask. -/
structure FsnotifyEvent where
  name : String
  op : Nat
deriving DecidableEq, Repr

/-- `eventCreatesOrWritesPath` (fswatcher): true for Create/Write events whose
cleaned name equals the given (already cleaned) certificate path. -/
def eventCreatesOrWritesPath (event : FsnotifyEvent) (path : String) : Bool :=
  filepathClean event.name == path && event.op &&& fsCreateOrWriteOpMask != 0

/-- `symlinkModified` (fswatcher): true when the currently resolved path is
non-empty and differs from the previously resolved path. -/
def symlinkModified (cur prev : String) : Bool :=
  cur != "" && cur != prev

/-- The fswatcher `Sentinel` struct: configured paths plus the
`atomic.Value` certificate cell (`none` = nothing stored yet). The `ticker`
package's `Sentinel` has the same certificate cell and identical load/read
methods, so it is covered by the same embedding. -/
structure Sentinel where
  certPath : String
  keyPath : String
  certificate : Option TLSCertificate := none
deriving DecidableEq, Repr

/-- Oracle for one `loadCertificate` call: the outcome of the external call
`tls.LoadX509KeyPair(certPath, keyPath)` and the external parser
`x509.ParseCertificate`. -/
structure LoadEnv where
  keyPair : Except GoError TLSCertificate
  parseCertificate : Bytes → Except GoError X509Certificate

/-- Result status of one `loadCertificate` call: returned nil, returned an
error, or panicked on the unguarded `certificate.Certificate[0]` index. -/
inductive LoadStatus where
  | ok
  | error (e : GoError)
  | outOfBounds
deriving DecidableEq, Repr

/-- `Sentinel.loadCertificate` (fswatcher and, textually identical, ticker):
load the pair, parse the leaf from the first chain element, and only then
store the certificate; each failure returns a wrapped error without storing.
The unguarded Go index `certificate.Certificate[0]` is modelled with `[0]?`,
where `none` marks the would-be panic. -/
def Sentinel.loadCertificate (w : Sentinel) (env : LoadEnv) : Sentinel × LoadStatus :=
  match env.keyPair with
  | .error err => (w, .error (.wrap "unable to load certificate" err))
  | .ok certificate =>
    match certificate.certificate[0]? with
    | none => (w, .outOfBounds)
    | some first =>
      match env.parseCertificate first with
      | .error err => (w, .error (.wrap "unable to load certificate" err))
      | .ok leaf =>
        ({ w with certificate := some { certificate with leaf := some leaf } }, .ok)

/-- `Sentinel.GetCertificate`: read the cell; the type assertion on an empty
`atomic.Value` yields a nil pointer (`none`); the error is always nil. -/
def Sentinel.GetCertificate (w : Sentinel) : Option TLSCertificate × Option GoError :=
  (w.certificate, none)

/-- `Sentinel.GetClientCertificate`: like `GetCertificate` but a nil pointer
is replaced by a pointer to an empty `tls.Certificate{}`. -/
def Sentinel.GetClientCertificate (w : Sentinel) : Option TLSCertificate × Option GoError :=
  match w.certificate with
  | none => (some { certificate := [] }, none)
  | some cert => (some cert, none)

/-- Outcome of `New`: the constructed sentinel, a returned error, or the
panic case propagated from `loadCertificate`. -/
inductive NewResult where
  | ok (w : Sentinel)
  | error (e : GoError)
  | outOfBounds
deriving Repr

/-- `New` (fswatcher and, for the load behaviour, ticker): construct the
sentinel and run the initial `loadCertificate` synchronously, failing
construction when it fails. Metric-gauge registration (which can also abort
`New` with an external error) is omitted as external telemetry wiring. -/
def New (cert key : String) (env : LoadEnv) : NewResult :=
  let fsw : Sentinel := { certPath := cert, keyPath := key }
  match fsw.loadCertificate env with
  | (fsw2, .ok) => .ok fsw2
  | (_, .error err) => .error (.wrap "unable to load initial certificate" err)
  | (_, .outOfBounds) => .outOfBounds

/-- The mutable state of one `Sentinel.Start` invocation: the sentinel, the
local `certPath := filepath.Clean(w.certPath)` and the local `realCertPath`
tracking the last resolved symlink target. -/
structure LoopState where
  w : Sentinel
  certPath : String
  realCertPath : String
deriving DecidableEq, Repr

/-- One arrival at the `select` inside `Sentinel.Start`: context
cancellation, a directory event (with the oracle outcome of
`filepath.EvalSymlinks(certPath)` and of the external calls made by the
`loadCertificate` it may run), or an error from the fsnotify error channel. -/
inductive WatchSignal where
  | ctxDone (e : GoError)
  | fsEvent (event : FsnotifyEvent) (resolve : Except GoError String) (env : LoadEnv)
  | watchError (e : GoError)

/-- Result of one `Start` loop iteration: the loop continues with the given
state, or `Start` returns the given error leaving the sentinel in the given
state, or the iteration panics (out-of-bounds chain index). -/
inductive StepResult where
  | running (s : LoopState)
  | stopped (s : LoopState) (e : GoError)
  | outOfBounds
deriving DecidableEq, Repr

/-- True exactly for the `running` constructor. -/
def StepResult.isRunning : StepResult → Bool
  | .running _ => true
  | _ => false

/-- The loop state carried by a non-panicking step result. -/
def StepResult.state : StepResult → Option LoopState
  | .running s => some s
  | .stopped s _ => some s
  | .outOfBounds => none

/-- One iteration of the `for`/`select` loop in `Sentinel.Start`
(fswatcher): on a directory event, re-resolve the symlink chain (returning
the resolution error if any); when `eventCreatesOrWritesPath` or
`symlinkModified` fires, record the new resolved path and reload, and a
reload error makes `Start` return it. The second component records whether
`loadCertificate` was invoked during the iteration. -/
def startStep (s : LoopState) (sig : WatchSignal) : StepResult × Bool :=
  match sig with
  | .ctxDone e => (.stopped s e, false)
  | .watchError e => (.stopped s e, false)
  | .fsEvent event resolve env =>
    match resolve with
    | .error e => (.stopped s e, false)
    | .ok currentPath =>
      if eventCreatesOrWritesPath event s.certPath || symlinkModified currentPath s.realCertPath then
        let s1 := { s with realCertPath := currentPath }
        match s1.w.loadCertificate env with
        | (_, .error e) => (.stopped s1 e, true)
        | (w2, .ok) => (.running { s1 with w := w2 }, true)
        | (_, .outOfBounds) => (.outOfBounds, true)
      else
        (.running s, false)

/-- The loop-local state set up at the top of `Sentinel.Start`:
`certPath := filepath.Clean(w.certPath)` and
`realCertPath, _ := filepath.EvalSymlinks(certPath)` (the resolution outcome
is an oracle; its error is discarded, leaving the empty string). -/
def startInit (w : Sentinel) (resolved : String) : LoopState :=
  { w := w, certPath := filepathClean w.certPath, realCertPath := resolved }

/-- Repeated reload attempts against a sentinel: each element supplies the
external outcomes of one `loadCertificate` call. Every mutation the
fswatcher or ticker code performs on the certificate cell goes through
`loadCertificate`, so any reachable cell state is a `runLoads` result. -/
def runLoads (w : Sentinel) (envs : List LoadEnv) : Sentinel :=
  envs.foldl (fun w2 env => (w2.loadCertificate env).1) w

end Fswatcher

/-- Follows the spec's words (§4.2 step b, clause i and ii): trigger when
the event's affected name, normalized, equals the watched certificate
path's final path component and the event kind is created or written, or
when the freshly resolved path is non-empty and differs from the recorded
one. Used only to compare the spec's wording with the code's predicate. -/
def specFinalComponent (path : String) : String :=
  match (splitOnSlash [] path.data).reverse.find? (fun c => c ≠ "") with
  | some c => c
  | none => if path.data.head? == some '/' then "/" else "."

/-- Follows the spec's words for the reload-trigger decision of §4.2 step b;
the code's decision is `eventCreatesOrWritesPath _ cleanedPath ||
symlinkModified cur prev`. -/
def specTriggerReload (event : Fswatcher.FsnotifyEvent)
    (watchedPath lastResolved current : String) : Bool :=
  (filepathClean event.name == specFinalComponent (filepathClean watchedPath)
      && event.op &&& Fswatcher.fsCreateOrWriteOpMask != 0)
    || (current != "" && current != lastResolved)

namespace Certinel

/-- The observable state of a `Certinel` touched by its `Watch` goroutine:
the `atomic.Value` certificate cell, the two channel handles (`false` once
the corresponding channel is observed closed and the local variable is set
to nil), the `loaded` latch with the first-load error, and the sequence of
`errBack` callback invocations. `New` leaves the cell empty, the latch
unfired and no callbacks made, so the default value is the freshly
constructed state. -/
structure State where
  certificate : Option TLSCertificate := none
  tlsOpen : Bool := true
  errOpen : Bool := true
  loaded : Bool := false
  err : Option GoError := none
  errBackCalls : List GoError := []
deriving DecidableEq, Repr

/-- One receive inside the `Watch` goroutine's `select`: a certificate or
an error, with `ok = false` marking a closed-channel receive. -/
inductive WatchMsg where
  | cert (c : TLSCertificate) (ok : Bool)
  | err (e : GoError) (ok : Bool)
deriving DecidableEq, Repr

/-- One iteration of the `Watch` goroutine's `select` (certinel.go): a
certificate receive stores into the cell and fires the `loaded` latch; an
error receive invokes `errBack` and, when it is the first completed load,
records the error and fires the latch; a closed-channel receive nils the
corresponding channel variable. -/
def watchStep (s : State) (m : WatchMsg) : State :=
  match m with
  | .cert c ok =>
    if !ok then { s with tlsOpen := false }
    else
      let s1 := { s with certificate := some c }
      if !s1.loaded then { s1 with loaded := true } else s1
  | .err e ok =>
    if !ok then { s with errOpen := false }
    else
      let s1 := { s with errBackCalls := s.errBackCalls ++ [e] }
      if !s1.loaded then { s1 with loaded := true, err := some e } else s1

/-- The `for tlsChan != nil && errChan != nil` loop of the `Watch`
goroutine, driven by a finite schedule of channel receives: each message is
processed only while both channel variables are still non-nil. -/
def watchRun (s : State) : List WatchMsg → State
  | [] => s
  | m :: ms => if s.tlsOpen && s.errOpen then watchRun (watchStep s m) ms else s

/-- `Certinel.GetCertificate`: read the cell (nil pointer before the first
store), always with a nil error. -/
def GetCertificate (s : State) : Option TLSCertificate × Option GoError :=
  (s.certificate, none)

/-- `Certinel.GetClientCertificate`: read the cell, replacing a nil pointer
by a pointer to an empty `tls.Certificate{}`; always a nil error. -/
def GetClientCertificate (s : State) : Option TLSCertificate × Option GoError :=
  match s.certificate with
  | none => (some { certificate := [] }, none)
  | some cert => (some cert, none)

/-- The lifecycle guards of a `Certinel` relevant to `Close`: whether
`watchOnce` and `closeOnce` have been consumed, and how many times
`watcher.Close()` has actually run. -/
structure CloseState where
  watchStarted : Bool := false
  closed : Bool := false
  teardowns : Nat := 0
deriving DecidableEq, Repr

/-- `Certinel.Close` (certinel.go): consume `watchOnce` (preventing a later
`Watch` from launching the goroutine), then run `watcher.Close()` under
`closeOnce` — so only the call that wins `closeOnce` assigns the named
return `err`, and every later call leaves it nil. `watcherCloseResult` is
the oracle outcome of the single `watcher.Close()` call; the `<-c.done`
wait is a pure synchronization with no observable state change. -/
def Close (s : CloseState) (watcherCloseResult : Option GoError) : CloseState × Option GoError :=
  let s1 := { s with watchStarted := true }
  if s1.closed then (s1, none)
  else ({ s1 with closed := true, teardowns := s1.teardowns + 1 }, watcherCloseResult)

/-- `n` sequential `Close` calls on a fresh `Certinel` (the `sync.Once`
guards serialize concurrent callers, so the sequential trace is the general
one), collecting each call's return value in order. -/
def closeN (watcherCloseResult : Option GoError) : Nat → CloseState × List (Option GoError)
  | 0 => ({}, [])
  | n + 1 =>
    let (s, outs) := closeN watcherCloseResult n
    let (s2, out) := Close s watcherCloseResult
    (s2, outs ++ [out])

end Certinel

example : filepathClean "/d/my.crt" = "/d/my.crt" := by decide
example : filepathClean "my.crt" = "my.crt" := by decide
example : filepathClean "" = "." := by decide
example : filepathClean "/a/../b//./c/" = "/b/c" := by decide
example : filepathClean "../a" = "../a" := by decide
example : filepathClean "/.." = "/" := by decide

/-- A concrete loaded certificate, used by concrete witnesses. -/
def loadedCert : TLSCertificate :=
  { certificate := [[1]], leaf := some { serialNumber := 1 } }

/-- A sentinel that has completed a successful load, used by witnesses. -/
def sampleSentinel : Fswatcher.Sentinel :=
  { certPath := "/d/my.crt", keyPath := "/d/my.key", certificate := some loadedCert }

/-- Oracle for a failing load: `tls.LoadX509KeyPair` reports no certificate
data. Used by concrete witnesses. -/
def failLoadEnv : Fswatcher.LoadEnv :=
  { keyPair := .error (.msg "no certificate data found")
    parseCertificate := fun _ => .error (.msg "parse unused") }

/-- Oracle for a successful load of a serial-2 certificate, used by
concrete witnesses. -/
def okLoadEnv : Fswatcher.LoadEnv :=
  { keyPair := .ok { certificate := [[2]] }
    parseCertificate := fun _ => .ok { serialNumber := 2 } }

/-- Every failing `loadCertificate` leaves the sentinel untouched: the
store runs only after both the key-pair load and the leaf parse succeeded. -/
theorem loadCertificate_error_preserves (w : Fswatcher.Sentinel)
    (env : Fswatcher.LoadEnv) (e : GoError)
    (h : (w.loadCertificate env).2 = .error e) :
    (w.loadCertificate env).1 = w := by
  unfold Fswatcher.Sentinel.loadCertificate at *
  rcases hk : env.keyPair with e1 | c
  · simp [hk]
  · rcases hc : c.certificate[0]? with _ | first
    · simp [hk, hc]
    · rcases hp : env.parseCertificate first with e2 | leaf
      · simp [hk, hc, hp]
      · simp [hk, hc, hp] at h

/-- C1: a reload attempt that fails (pair unreadable or mismatched, or leaf
unparsable) returns an error without storing, so the certificate returned
by `GetCertificate` after the attempt is exactly the one returned before
it. -/
theorem failed_reload_preserves_stored_certificate (w : Fswatcher.Sentinel)
    (env : Fswatcher.LoadEnv) (e : GoError)
    (h : (w.loadCertificate env).2 = .error e) :
    (w.loadCertificate env).1 = w
    ∧ ((w.loadCertificate env).1).GetCertificate = w.GetCertificate := by
  have h1 := loadCertificate_error_preserves w env e h
  exact ⟨h1, by rw [h1]⟩

/-- Witness for C1: a concrete failing reload against a sentinel holding a
previously loaded certificate. -/
theorem failed_reload_preserves_stored_certificate_witness :
    (sampleSentinel.loadCertificate failLoadEnv).2
      = .error (.wrap "unable to load certificate" (.msg "no certificate data found"))
    ∧ ((sampleSentinel.loadCertificate failLoadEnv).1 = sampleSentinel
      ∧ ((sampleSentinel.loadCertificate failLoadEnv).1).GetCertificate
          = sampleSentinel.GetCertificate) :=
  ⟨rfl, failed_reload_preserves_stored_certificate sampleSentinel failLoadEnv _ rfl⟩

/-- An error receive in the `Watch` goroutine never touches the certificate
cell. -/
theorem watchStep_err_certificate (s : Certinel.State) (e : GoError) (ok : Bool) :
    (Certinel.watchStep s (.err e ok)).certificate = s.certificate := by
  cases ok <;> by_cases hl : s.loaded <;> simp [Certinel.watchStep, hl]

/-- A run of the `Watch` loop that only ever receives errors leaves an
empty certificate cell empty. -/
theorem watchRun_errs_certificate (s : Certinel.State)
    (errs : List (GoError × Bool)) (h : s.certificate = none) :
    (Certinel.watchRun s (errs.map fun pr => .err pr.1 pr.2)).certificate = none := by
  induction errs generalizing s with
  | nil => exact h
  | cons pr rest ih =>
    simp only [List.map_cons, Certinel.watchRun]
    by_cases hopen : (s.tlsOpen && s.errOpen) = true
    · rw [if_pos hopen]
      exact ih _ ((watchStep_err_certificate s pr.1 pr.2).trans h)
    · rw [if_neg hopen]
      exact h

/-- C7: `GetCertificate` is infallible — the error component is nil on
every call (certinel and fswatcher read paths alike) — and before the first
successful load, including after any number of reported load failures, the
returned certificate is nil rather than an error. -/
theorem getCertificate_infallible (s : Certinel.State) (w : Fswatcher.Sentinel)
    (errs : List (GoError × Bool)) :
    (Certinel.GetCertificate s).2 = none
    ∧ (Fswatcher.Sentinel.GetCertificate w).2 = none
    ∧ (Certinel.GetCertificate
        (Certinel.watchRun {} (errs.map fun pr => .err pr.1 pr.2))).1 = none :=
  ⟨rfl, rfl, watchRun_errs_certificate {} errs rfl⟩

/-- C8: `GetClientCertificate` returns a (non-nil) pointer to an empty
certificate value with a nil error while nothing is loaded, and the loaded
certificate once one is, unlike `GetCertificate`, which returns nil in the
not-loaded case; the fswatcher/ticker variant behaves the same way. -/
theorem getClientCertificate_empty_not_none (s s2 : Certinel.State)
    (c : TLSCertificate) (p k : String) (h : s.certificate = some c) :
    Certinel.GetClientCertificate ({} : Certinel.State) = (some { certificate := [] }, none)
    ∧ (Certinel.GetClientCertificate s2).1.isSome = true
    ∧ Certinel.GetClientCertificate s = (some c, none)
    ∧ Certinel.GetCertificate ({} : Certinel.State) = (none, none)
    ∧ Fswatcher.Sentinel.GetClientCertificate { certPath := p, keyPath := k }
        = (some { certificate := [] }, none) := by
  refine ⟨rfl, ?_, ?_, rfl, rfl⟩
  · unfold Certinel.GetClientCertificate
    cases s2.certificate <;> simp
  · simp [Certinel.GetClientCertificate, h]

/-- Witness for C8: concrete loaded and not-loaded coordinator states. -/
theorem getClientCertificate_empty_not_none_witness :
    Certinel.GetClientCertificate ({} : Certinel.State) = (some { certificate := [] }, none)
    ∧ (Certinel.GetClientCertificate ({} : Certinel.State)).1.isSome = true
    ∧ Certinel.GetClientCertificate { certificate := some loadedCert } = (some loadedCert, none)
    ∧ Certinel.GetCertificate ({} : Certinel.State) = (none, none)
    ∧ Fswatcher.Sentinel.GetClientCertificate { certPath := "/d/my.crt", keyPath := "/d/my.key" }
        = (some { certificate := [] }, none) :=
  getClientCertificate_empty_not_none { certificate := some loadedCert } {}
    loadedCert "/d/my.crt" "/d/my.key" rfl

/-- C10: whenever the external `tls.LoadX509KeyPair` honours its contract
of returning a non-empty chain on success (the spec's §4.1 loader fails on
an empty chain), the unguarded `certificate.Certificate[0]` access in
`loadCertificate` is in bounds: the call never panics, so an empty or
malformed chain only ever surfaces as a returned error. -/
theorem chain_index_in_bounds_on_keypair_success (w : Fswatcher.Sentinel)
    (env : Fswatcher.LoadEnv)
    (h : ∀ c, env.keyPair = .ok c → c.certificate ≠ []) :
    (w.loadCertificate env).2 ≠ .outOfBounds := by
  unfold Fswatcher.Sentinel.loadCertificate
  rcases hk : env.keyPair with e1 | c
  · simp
  · have hne := h c hk
    rcases hc : c.certificate with _ | ⟨b, bs⟩
    · exact absurd hc hne
    · rcases hp : env.parseCertificate b with e2 | leaf <;> simp [hc, hp]

/-- Witness for C10: a concrete successful key-pair load with a one-element
chain. -/
theorem chain_index_in_bounds_on_keypair_success_witness :
    (sampleSentinel.loadCertificate okLoadEnv).2 ≠ Fswatcher.LoadStatus.outOfBounds :=
  chain_index_in_bounds_on_keypair_success sampleSentinel okLoadEnv
    (by intro c hc; cases hc; simp [okLoadEnv])

/-- The reload-attempt trace of an event iteration equals the code's
trigger predicate: `eventCreatesOrWritesPath` against the cleaned full
certificate path, or `symlinkModified` against the recorded resolution. -/
theorem startStep_reload_trace (s : Fswatcher.LoopState)
    (event : Fswatcher.FsnotifyEvent) (env : Fswatcher.LoadEnv) (cur : String) :
    (Fswatcher.startStep s (.fsEvent event (.ok cur) env)).2
      = (Fswatcher.eventCreatesOrWritesPath event s.certPath
          || Fswatcher.symlinkModified cur s.realCertPath) := by
  unfold Fswatcher.startStep
  dsimp only
  by_cases h : (Fswatcher.eventCreatesOrWritesPath event s.certPath
      || Fswatcher.symlinkModified cur s.realCertPath) = true
  · rw [if_pos h, h]
    rcases hl : Fswatcher.Sentinel.loadCertificate
        ({ s with realCertPath := cur } : Fswatcher.LoopState).w env with ⟨w2, st⟩
    cases st <;> simp [hl]
  · rw [if_neg h]
    simp only [Bool.not_eq_true] at h
    rw [h]

/-- C5 (confirmed): after an event iteration whose symlink resolution
succeeded (`filepath.EvalSymlinks` returns a non-empty path on success),
the recorded `realCertPath` equals the resolution observed during that
iteration whether or not a reload was triggered: the triggering branch
assigns it, and in the non-triggering branch `symlinkModified` being false
forces the observed resolution to already equal the recorded one. -/
theorem resolved_target_updated_after_event (s : Fswatcher.LoopState)
    (event : Fswatcher.FsnotifyEvent) (env : Fswatcher.LoadEnv) (cur : String)
    (h : cur ≠ "") :
    ((Fswatcher.startStep s (.fsEvent event (.ok cur) env)).1.state.all
      fun s2 => s2.realCertPath == cur) = true := by
  unfold Fswatcher.startStep
  dsimp only
  by_cases hc : (Fswatcher.eventCreatesOrWritesPath event s.certPath
      || Fswatcher.symlinkModified cur s.realCertPath) = true
  · rw [if_pos hc]
    rcases hl : Fswatcher.Sentinel.loadCertificate
        ({ s with realCertPath := cur } : Fswatcher.LoopState).w env with ⟨w2, st⟩
    cases st <;> simp [hl, Fswatcher.StepResult.state]
  · rw [if_neg hc]
    simp only [Bool.or_eq_true, not_or, Bool.not_eq_true] at hc
    have hsym := hc.2
    unfold Fswatcher.symlinkModified at hsym
    rcases Bool.and_eq_false_iff.mp hsym with h1 | h2
    · exact absurd (by simpa using h1) h
    · have : cur = s.realCertPath := by simpa using h2
      simp [Fswatcher.StepResult.state, Option.all, this]

/-- Witness for C5: a chmod event on an unrelated file while the symlink
resolution is unchanged triggers nothing, yet the recorded resolution still
equals the observed one. -/
theorem resolved_target_updated_after_event_witness :
    ("/d/.first/my.crt" : String) ≠ ""
    ∧ ((Fswatcher.startStep
        { w := sampleSentinel, certPath := "/d/my.crt", realCertPath := "/d/.first/my.crt" }
        (.fsEvent { name := "/d/other.txt", op := 16 } (.ok "/d/.first/my.crt")
          failLoadEnv)).1.state.all
        fun s2 => s2.realCertPath == "/d/.first/my.crt") = true :=
  ⟨by decide, resolved_target_updated_after_event _ _ _ _ (by decide)⟩

/-- C3 counterexample: the spec's clause (i) compares the event's
normalized name against the final path component of the watched path, but
the code compares it against the whole cleaned path. An event named
`my.crt` (matching the final component of the watched `/d/my.crt`) with the
Write bit set satisfies the spec's trigger condition, yet the detector
attempts no reload. -/
theorem spec_final_component_trigger_refuted :
    specTriggerReload { name := "my.crt", op := 2 } "/d/my.crt"
        "/d/.first/my.crt" "/d/.first/my.crt" = true
    ∧ (Fswatcher.startStep
        { w := { certPath := "/d/my.crt", keyPath := "/d/my.key" },
          certPath := filepathClean "/d/my.crt", realCertPath := "/d/.first/my.crt" }
        (.fsEvent { name := "my.crt", op := 2 } (.ok "/d/.first/my.crt")
          { keyPair := .error (.msg "unused"),
            parseCertificate := fun _ => .error (.msg "unused") })).2 = false :=
  ⟨by decide, rfl⟩

/-- C3 (amended): a reload is attempted if and only if the event's cleaned
name equals the cleaned full watched certificate path (not merely its final
component) with the Create or Write bit set, or the freshly resolved
symlink target is non-empty and differs from the recorded one; the loop's
comparison path is `filepath.Clean(w.certPath)`, fixed at `Start`. -/
theorem trigger_decision_matches_cleaned_full_path (s : Fswatcher.LoopState)
    (event : Fswatcher.FsnotifyEvent) (env : Fswatcher.LoadEnv) (cur : String)
    (w : Fswatcher.Sentinel) (r : String) :
    ((Fswatcher.startStep s (.fsEvent event (.ok cur) env)).2 = true ↔
      ((filepathClean event.name = s.certPath
          ∧ event.op &&& Fswatcher.fsCreateOrWriteOpMask ≠ 0)
        ∨ (cur ≠ "" ∧ cur ≠ s.realCertPath)))
    ∧ (Fswatcher.startInit w r).certPath = filepathClean w.certPath := by
  refine ⟨?_, rfl⟩
  rw [startStep_reload_trace]
  simp [Fswatcher.eventCreatesOrWritesPath, Fswatcher.symlinkModified]

/-- The Start-loop state after a triggered but failed reload: the loop
exits with the load error and the sentinel keeps its previous certificate. -/
theorem startStep_trigger_load_error (s : Fswatcher.LoopState)
    (event : Fswatcher.FsnotifyEvent) (env : Fswatcher.LoadEnv) (cur : String)
    (e : GoError)
    (htrig : (Fswatcher.eventCreatesOrWritesPath event s.certPath
        || Fswatcher.symlinkModified cur s.realCertPath) = true)
    (hload : (Fswatcher.Sentinel.loadCertificate s.w env).2 = .error e) :
    (Fswatcher.startStep s (.fsEvent event (.ok cur) env)).1
      = .stopped { s with realCertPath := cur } e := by
  unfold Fswatcher.startStep
  dsimp only
  rw [if_pos htrig]
  rcases hl : Fswatcher.Sentinel.loadCertificate
      ({ s with realCertPath := cur } : Fswatcher.LoopState).w env with ⟨w2, st⟩
  have : st = .error e := by
    have hw : ({ s with realCertPath := cur } : Fswatcher.LoopState).w = s.w := rfl
    rw [hw] at hl
    rw [hl] at hload
    exact hload
  subst this
  simp [hl]

/-- C4 counterexample: a Write event on the watched path whose reload fails
makes `Start` return the load error — the step result is not `running`, so
the detector does not keep watching for further events, contrary to the
claim (the previously loaded certificate does remain stored). -/
theorem reload_failure_keeps_watching_refuted :
    ((Fswatcher.startStep
        { w := sampleSentinel, certPath := "/d/my.crt", realCertPath := "/d/.first/my.crt" }
        (.fsEvent { name := "/d/my.crt", op := 2 } (.ok "/d/.first/my.crt")
          failLoadEnv)).1).isRunning = false
    ∧ (Fswatcher.startStep
        { w := sampleSentinel, certPath := "/d/my.crt", realCertPath := "/d/.first/my.crt" }
        (.fsEvent { name := "/d/my.crt", op := 2 } (.ok "/d/.first/my.crt")
          failLoadEnv)).2 = true
    ∧ (Fswatcher.startStep
        { w := sampleSentinel, certPath := "/d/my.crt", realCertPath := "/d/.first/my.crt" }
        (.fsEvent { name := "/d/my.crt", op := 2 } (.ok "/d/.first/my.crt")
          failLoadEnv)).1
      = .stopped
          { w := sampleSentinel, certPath := "/d/my.crt", realCertPath := "/d/.first/my.crt" }
          (.wrap "unable to load certificate" (.msg "no certificate data found")) :=
  ⟨rfl, rfl, rfl⟩

/-- C4 (amended): when a reload triggered by a directory event fails, the
watch loop stops — `Start` returns the load error — while the previously
loaded certificate remains stored, so `GetCertificate` keeps returning it. -/
theorem reload_failure_stops_watch_loop_preserving_cert (s : Fswatcher.LoopState)
    (event : Fswatcher.FsnotifyEvent) (env : Fswatcher.LoadEnv) (cur : String)
    (e : GoError)
    (htrig : (Fswatcher.eventCreatesOrWritesPath event s.certPath
        || Fswatcher.symlinkModified cur s.realCertPath) = true)
    (hload : (Fswatcher.Sentinel.loadCertificate s.w env).2 = .error e) :
    (Fswatcher.startStep s (.fsEvent event (.ok cur) env)).1
      = .stopped { s with realCertPath := cur } e
    ∧ Fswatcher.Sentinel.GetCertificate
        ({ s with realCertPath := cur } : Fswatcher.LoopState).w
      = Fswatcher.Sentinel.GetCertificate s.w :=
  ⟨startStep_trigger_load_error s event env cur e htrig hload, rfl⟩

/-- Witness for the amended C4: the concrete failing reload of the
counterexample scenario. -/
theorem reload_failure_stops_watch_loop_preserving_cert_witness :
    (Fswatcher.eventCreatesOrWritesPath { name := "/d/my.crt", op := 2 } "/d/my.crt"
        || Fswatcher.symlinkModified "/d/.second/my.crt" "/d/.first/my.crt") = true
    ∧ (sampleSentinel.loadCertificate failLoadEnv).2
        = .error (.wrap "unable to load certificate" (.msg "no certificate data found"))
    ∧ ((Fswatcher.startStep
          { w := sampleSentinel, certPath := "/d/my.crt", realCertPath := "/d/.first/my.crt" }
          (.fsEvent { name := "/d/my.crt", op := 2 } (.ok "/d/.second/my.crt")
            failLoadEnv)).1
        = .stopped
            { w := sampleSentinel, certPath := "/d/my.crt", realCertPath := "/d/.second/my.crt" }
            (.wrap "unable to load certificate" (.msg "no certificate data found"))
      ∧ Fswatcher.Sentinel.GetCertificate
          ({ w := sampleSentinel, certPath := "/d/my.crt",
             realCertPath := "/d/.second/my.crt" } : Fswatcher.LoopState).w
        = Fswatcher.Sentinel.GetCertificate sampleSentinel) :=
  ⟨by decide, rfl,
    reload_failure_stops_watch_loop_preserving_cert
      { w := sampleSentinel, certPath := "/d/my.crt", realCertPath := "/d/.first/my.crt" }
      { name := "/d/my.crt", op := 2 } failLoadEnv "/d/.second/my.crt" _ (by decide) rfl⟩

/-- A certificate receive with `ok = true` stores the certificate and keeps
both channel variables as they were. -/
theorem watchStep_cert_true (s : Certinel.State) (c : TLSCertificate) :
    (Certinel.watchStep s (.cert c true)).certificate = some c
    ∧ (Certinel.watchStep s (.cert c true)).tlsOpen = s.tlsOpen
    ∧ (Certinel.watchStep s (.cert c true)).errOpen = s.errOpen := by
  by_cases hl : s.loaded <;> simp [Certinel.watchStep, hl]

/-- C2 (confirmed): with both channels live, processing a finite sequence of
successful loads leaves the cell holding exactly the last of them, so after
the Nth successful load `GetCertificate` returns the Nth loaded value and
nothing older. -/
theorem getCertificate_returns_latest_committed_load (s : Certinel.State)
    (cs : List TLSCertificate) (c : TLSCertificate)
    (h1 : s.tlsOpen = true) (h2 : s.errOpen = true) (h3 : cs.getLast? = some c) :
    Certinel.GetCertificate (Certinel.watchRun s (cs.map fun c2 => .cert c2 true))
      = (some c, none) := by
  induction cs generalizing s with
  | nil => exact absurd h3 (by simp)
  | cons a t ih =>
    simp only [List.map_cons, Certinel.watchRun, h1, h2, Bool.and_self, if_true]
    have hstep := watchStep_cert_true s a
    cases t with
    | nil =>
      have hac : a = c := by simpa using h3
      subst hac
      simp only [List.map_nil, Certinel.watchRun]
      unfold Certinel.GetCertificate
      rw [hstep.1]
    | cons b t2 =>
      exact ih _ (hstep.2.1.trans h1) (hstep.2.2.trans h2) (by simpa using h3)

/-- Witness for C2: two successful loads in a row; the read returns the
second. -/
theorem getCertificate_returns_latest_committed_load_witness :
    (({} : Certinel.State).tlsOpen = true ∧ ({} : Certinel.State).errOpen = true
      ∧ ([loadedCert, { certificate := [[2]] }] : List TLSCertificate).getLast?
          = some { certificate := [[2]] })
    ∧ Certinel.GetCertificate
        (Certinel.watchRun {}
          (([loadedCert, { certificate := [[2]] }] : List TLSCertificate).map
            fun c2 => .cert c2 true))
      = (some { certificate := [[2]] }, none) :=
  ⟨⟨rfl, rfl, rfl⟩,
    getCertificate_returns_latest_committed_load {} [loadedCert, { certificate := [[2]] }]
      { certificate := [[2]] } rfl rfl rfl⟩

/-- After `n + 1` sequential `Close` calls the guards are consumed, the
watcher was torn down exactly once, and the returns are the single
teardown's outcome followed by `n` nils. -/
theorem closeN_spec (res : Option GoError) (n : Nat) :
    Certinel.closeN res (n + 1)
      = ({ watchStarted := true, closed := true, teardowns := 1 },
          res :: List.replicate n none) := by
  induction n with
  | zero => rfl
  | succ m ih =>
    show Certinel.closeN res (m + 1 + 1) = _
    unfold Certinel.closeN
    rw [ih]
    simp [Certinel.Close, List.replicate_succ']

/-- C6 counterexample: when the single `watcher.Close()` teardown fails,
the first `Close` call returns that error while the second returns nil —
the teardown runs exactly once, but the N calls do not all return the same
outcome. -/
theorem close_calls_same_outcome_refuted :
    (Certinel.closeN (some (GoError.msg "close failed")) 2).2
        = [some (GoError.msg "close failed"), none]
    ∧ some (GoError.msg "close failed") ≠ (none : Option GoError)
    ∧ (Certinel.closeN (some (GoError.msg "close failed")) 2).1.teardowns = 1 :=
  ⟨rfl, by decide, rfl⟩

/-- C6 (amended): `Close` is idempotent in effect — for every N ≥ 1,
calling it N times tears the watcher down exactly once and every repeated
call is a no-op returning success (nil) — but the calls all return the same
outcome only when the single teardown returns nil: the first call returns
the teardown's outcome and all later calls return nil. -/
theorem close_idempotent_single_teardown (res : Option GoError) (n : Nat)
    (h : 1 ≤ n) :
    (Certinel.closeN res n).1.teardowns = 1
    ∧ (Certinel.closeN res n).2 = res :: List.replicate (n - 1) none := by
  obtain ⟨m, rfl⟩ : ∃ m, n = m + 1 := ⟨n - 1, (Nat.succ_pred_eq_of_pos h).symm⟩
  rw [closeN_spec]
  simp

/-- Witness for the amended C6: three `Close` calls with a failing
teardown. -/
theorem close_idempotent_single_teardown_witness :
    1 ≤ 3
    ∧ (Certinel.closeN (some (GoError.msg "close failed")) 3).1.teardowns = 1
    ∧ (Certinel.closeN (some (GoError.msg "close failed")) 3).2
        = some (GoError.msg "close failed") :: List.replicate (3 - 1) none :=
  ⟨by decide,
    close_idempotent_single_teardown (some (GoError.msg "close failed")) 3 (by decide)⟩

/-- A `loadCertificate` call that returns nil leaves a loaded certificate in
the cell. -/
theorem loadCertificate_ok_isSome (w : Fswatcher.Sentinel) (env : Fswatcher.LoadEnv)
    (h : (w.loadCertificate env).2 = .ok) :
    ((w.loadCertificate env).1).certificate.isSome = true := by
  rcases hk : env.keyPair with e1 | c
  · simp [Fswatcher.Sentinel.loadCertificate, hk] at h
  · rcases hc : c.certificate[0]? with _ | first
    · simp [Fswatcher.Sentinel.loadCertificate, hk, hc] at h
    · rcases hp : env.parseCertificate first with e2 | leaf
      · simp [Fswatcher.Sentinel.loadCertificate, hk, hc, hp] at h
      · simp [Fswatcher.Sentinel.loadCertificate, hk, hc, hp]

/-- Every `loadCertificate` call preserves a loaded cell: a success stores a
new certificate, a failure leaves the old one in place. -/
theorem loadCertificate_preserves_isSome (w : Fswatcher.Sentinel)
    (env : Fswatcher.LoadEnv) (h : w.certificate.isSome = true) :
    ((w.loadCertificate env).1).certificate.isSome = true := by
  rcases hk : env.keyPair with e1 | c
  · simpa [Fswatcher.Sentinel.loadCertificate, hk] using h
  · rcases hc : c.certificate[0]? with _ | first
    · simpa [Fswatcher.Sentinel.loadCertificate, hk, hc] using h
    · rcases hp : env.parseCertificate first with e2 | leaf
      · simpa [Fswatcher.Sentinel.loadCertificate, hk, hc, hp] using h
      · simp [Fswatcher.Sentinel.loadCertificate, hk, hc, hp]

/-- A loaded cell stays loaded across any sequence of reload attempts. -/
theorem runLoads_isSome (w : Fswatcher.Sentinel) (envs : List Fswatcher.LoadEnv)
    (h : w.certificate.isSome = true) :
    ((Fswatcher.runLoads w envs).certificate).isSome = true := by
  induction envs generalizing w with
  | nil => exact h
  | cons env rest ih =>
    exact ih _ (loadCertificate_preserves_isSome w env h)

/-- C9 (confirmed): `New` runs the initial load synchronously — a failing
initial load makes it return an error — and a sentinel it returns with nil
error holds a certificate that no later reload attempt can unload, so
`GetCertificate` never returns nil on a successfully constructed sentinel. -/
theorem new_success_implies_certificate_always_loaded (p k : String)
    (env env2 : Fswatcher.LoadEnv) (w : Fswatcher.Sentinel)
    (envs : List Fswatcher.LoadEnv) (e : GoError)
    (h : Fswatcher.New p k env = .ok w)
    (h2 : (Fswatcher.Sentinel.loadCertificate { certPath := p, keyPath := k } env2).2
        = .error e) :
    ((Fswatcher.runLoads w envs).GetCertificate.1).isSome = true
    ∧ (Fswatcher.runLoads w envs).GetCertificate.2 = none
    ∧ Fswatcher.New p k env2 = .error (.wrap "unable to load initial certificate" e) := by
  refine ⟨?_, rfl, ?_⟩
  · have hload : w.certificate.isSome = true := by
      simp only [Fswatcher.New] at h
      rcases hl : Fswatcher.Sentinel.loadCertificate
          ({ certPath := p, keyPath := k } : Fswatcher.Sentinel) env with ⟨w2, st⟩
      rw [hl] at h
      cases st with
      | ok =>
        cases h
        have := loadCertificate_ok_isSome { certPath := p, keyPath := k } env
          (by rw [hl])
        rw [hl] at this
        exact this
      | error e2 => exact absurd h (by simp)
      | outOfBounds => exact absurd h (by simp)
    exact runLoads_isSome w envs hload
  · simp only [Fswatcher.New]
    rcases hl2 : Fswatcher.Sentinel.loadCertificate
        ({ certPath := p, keyPath := k } : Fswatcher.Sentinel) env2 with ⟨w3, st2⟩
    have : st2 = .error e := by rw [hl2] at h2; exact h2
    subst this
    rfl

/-- Witness for C9: a concrete successful construction followed by a failing
and a succeeding reload, plus a failing construction. -/
theorem new_success_implies_certificate_always_loaded_witness :
    Fswatcher.New "/d/my.crt" "/d/my.key" okLoadEnv
      = .ok { certPath := "/d/my.crt", keyPath := "/d/my.key",
              certificate := some { certificate := [[2]], leaf := some { serialNumber := 2 } } }
    ∧ (((Fswatcher.runLoads
          { certPath := "/d/my.crt", keyPath := "/d/my.key",
            certificate := some { certificate := [[2]], leaf := some { serialNumber := 2 } } }
          [failLoadEnv, okLoadEnv]).GetCertificate.1).isSome = true
      ∧ (Fswatcher.runLoads
          { certPath := "/d/my.crt", keyPath := "/d/my.key",
            certificate := some { certificate := [[2]], leaf := some { serialNumber := 2 } } }
          [failLoadEnv, okLoadEnv]).GetCertificate.2 = none
      ∧ Fswatcher.New "/d/my.crt" "/d/my.key" failLoadEnv
          = .error (.wrap "unable to load initial certificate"
              (.wrap "unable to load certificate" (.msg "no certificate data found")))) :=
  ⟨rfl,
    new_success_implies_certificate_always_loaded "/d/my.crt" "/d/my.key"
      okLoadEnv failLoadEnv _ [failLoadEnv, okLoadEnv] _ rfl rfl⟩
